import Mathlib

/-!
Verification development for `sun_dimmer.py`: a control loop that keeps
display brightness synchronized with solar altitude.

The embedding models the core computations of the source file:
brightness bounds and solar thresholds are taken from the `brightness`
section of the configuration, brightness values are rationals (Python
floats are modelled as exact rationals), device readbacks are integers
(the source parses them with an integer regex), and the per-tick loop
body of `SunDimmer.run` is an explicit state-transition function.
External effects (device readback, solar altitude, the look-ahead solar
computation, device-write success) enter as oracle inputs of the tick.
-/

namespace SunDimmer

/-- Configuration, flattened from the nested `DEFAULT_CONFIG` dictionary:
`brightness.{min_brightness, max_brightness, sun_down_alt, sun_high_alt,
manual_change_tolerance}` and `system.{update_interval,
log_before_change_minutes}`. -/
structure Config where
  min_brightness : ℤ
  max_brightness : ℤ
  sun_down_alt : ℚ
  sun_high_alt : ℚ
  manual_change_tolerance : ℚ
  update_interval : ℚ
  log_before_change_minutes : ℚ
  deriving Repr, DecidableEq

/-- The `DEFAULT_CONFIG` literal of the source (lines 37-59). -/
def DEFAULT_CONFIG : Config :=
  { min_brightness := 1
    max_brightness := 100
    sun_down_alt := -6
    sun_high_alt := 30
    manual_change_tolerance := 2
    update_interval := 300
    log_before_change_minutes := 15 }

/-- Mutable state of one run: the persisted `state` dictionary
(`user_offset`, `last_brightness`) together with the in-memory trackers
`last_logged_brightness` (on `self`), and the loop locals
`last_set_brightness` and `is_first_run` of `SunDimmer.run`. -/
structure LoopState where
  user_offset : ℚ
  last_brightness : ℚ
  last_logged_brightness : Option ℚ
  last_set_brightness : ℤ
  is_first_run : Bool
  deriving Repr, DecidableEq

/-- Oracle inputs of one tick of the loop in `SunDimmer.run`:
`actual` is the device readback `get_current_brightness()` (`none` when
unreadable), `altitude` is `get_sun_altitude` (`none` when unavailable),
`gateAltNow`/`gateAltFuture` are the two solar altitudes computed inside
`will_brightness_change_soon` (`none` models an exception there), and
`writeOk` is whether the device write commands succeed. -/
structure TickInput where
  actual : Option ℤ
  altitude : Option ℚ
  gateAltNow : Option ℚ
  gateAltFuture : Option ℚ
  writeOk : Bool
  deriving Repr, DecidableEq

/-- Observable outcome of one tick: the clamped integer value passed to
the device-write commands (`none` when the tick was skipped for lack of
altitude), the return value of `set_brightness` (`none` on write
failure), whether the combined log gate passed, the two gate values,
the sleep performed at the end of the tick, and whether the loop is
still running afterwards. -/
structure TickResult where
  sentValue : Option ℤ
  newlySet : Option ℤ
  didLog : Bool
  gateMateriality : Bool
  gateImminence : Bool
  sleepSeconds : ℚ
  runningAfter : Bool
  deriving Repr, DecidableEq

/-- Python `int(...)` applied to a float/rational: truncation toward
zero (source line 243 converts `percentage` with `int`). -/
def pyInt (q : ℚ) : ℤ :=
  q.num.tdiv (q.den : ℤ)

/-- `calculate_brightness_from_sun` (source lines 270-282): the
three-segment piecewise-linear curve from solar altitude to brightness
percentage. -/
def calculate_brightness_from_sun (cfg : Config) (altitude : ℚ) : ℚ :=
  if altitude ≤ cfg.sun_down_alt then
    (cfg.min_brightness : ℚ)
  else if altitude ≥ cfg.sun_high_alt then
    (cfg.max_brightness : ℚ)
  else
    (cfg.min_brightness : ℚ) +
      (altitude - cfg.sun_down_alt) / (cfg.sun_high_alt - cfg.sun_down_alt) *
        ((cfg.max_brightness : ℚ) - (cfg.min_brightness : ℚ))

/-- The clamped integer value that `set_brightness` (source lines
242-243) sends to every configured device:
`max(min_brightness, min(max_brightness, int(percentage)))`. -/
def set_brightness_value (cfg : Config) (percentage : ℚ) : ℤ :=
  max cfg.min_brightness (min cfg.max_brightness (pyInt percentage))

/-- `set_offset` (source lines 284-294): stores the new offset in the
persisted state (and saves it); nothing else of the state changes. -/
def set_offset (st : LoopState) (new_offset : ℚ) : LoopState :=
  { st with user_offset := new_offset }

/-- The offset derived by the manual-change detector (source line 340):
`new_offset = current_actual_brightness - calculated_brightness`. -/
def drift_new_offset (actual : ℤ) (calculated : ℚ) : ℚ :=
  (actual : ℚ) - calculated

/-- The manual-change detection of `SunDimmer.run` (source lines
337-343): skipped on the first iteration and when the readback is
unavailable; otherwise, when the readback diverges from
`last_set_brightness` by more than the tolerance, the new offset is
`drift_new_offset`; else the stored offset is kept. -/
def drift_offset_update (cfg : Config) (st : LoopState) (actual : Option ℤ)
    (calculated : ℚ) : ℚ :=
  match actual with
  | some act =>
      if st.is_first_run = false ∧
          |(act : ℚ) - (st.last_set_brightness : ℚ)| > cfg.manual_change_tolerance then
        drift_new_offset act calculated
      else
        st.user_offset
  | none => st.user_offset

/-- The materiality gate `brightness_will_change` (source lines
348-349): true when there is no prior logged value or the new final
brightness differs from it by more than 0.5. -/
def brightness_will_change (last_logged : Option ℚ) (final_brightness : ℚ) : Bool :=
  match last_logged with
  | none => true
  | some prev => decide (|final_brightness - prev| > 1/2)

/-- `will_brightness_change_soon` (source lines 155-171): computes the
curve output plus the current user offset at the current and the future
solar altitude and reports whether they differ by more than 1; any
exception inside the computation (modelled by a `none` altitude) yields
`true`. -/
def will_brightness_change_soon (cfg : Config) (st : LoopState)
    (altNow altFuture : Option ℚ) : Bool :=
  match altNow, altFuture with
  | some aNow, some aFut =>
      decide (|(calculate_brightness_from_sun cfg aFut + st.user_offset) -
        (calculate_brightness_from_sun cfg aNow + st.user_offset)| > 1)
  | _, _ => true

/-- State update after the write of a tick (source lines 354-360): on a
successful write, `last_set_brightness` and the persisted
`last_brightness` take the newly set value, and `last_logged_brightness`
is refreshed only when the materiality gate passed; on a failed write
nothing is updated. -/
def apply_write (st : LoopState) (newly_set : Option ℤ) (will_change : Bool)
    (final_brightness : ℚ) : LoopState :=
  match newly_set with
  | some v =>
      { st with
        last_set_brightness := v
        last_brightness := (v : ℚ)
        last_logged_brightness :=
          if will_change then some final_brightness else st.last_logged_brightness }
  | none => st

/-- The body of one tick of `SunDimmer.run` once the altitude is
available (source lines 331-364). -/
def tick_body (cfg : Config) (st : LoopState) (inp : TickInput)
    (altitude : ℚ) : LoopState × TickResult :=
  let calculated := calculate_brightness_from_sun cfg altitude
  let should_log := will_brightness_change_soon cfg st inp.gateAltNow inp.gateAltFuture
  let st1 := set_offset st (drift_offset_update cfg st inp.actual calculated)
  let final_brightness := calculated + st1.user_offset
  let will_change := brightness_will_change st1.last_logged_brightness final_brightness
  let sent := set_brightness_value cfg final_brightness
  let newly_set : Option ℤ := if inp.writeOk then some sent else none
  let st2 := apply_write st1 newly_set will_change final_brightness
  ({ st2 with is_first_run := false },
   { sentValue := some sent
     newlySet := newly_set
     didLog := should_log && will_change
     gateMateriality := will_change
     gateImminence := should_log
     sleepSeconds := cfg.update_interval
     runningAfter := true })

/-- One tick of `SunDimmer.run` (source lines 322-364): when the
altitude is unavailable the loop sleeps the normal interval and
continues without touching any state; otherwise the tick body runs. -/
def tick (cfg : Config) (st : LoopState) (inp : TickInput) : LoopState × TickResult :=
  match inp.altitude with
  | none =>
      (st,
       { sentValue := none
         newlySet := none
         didLog := false
         gateMateriality := false
         gateImminence := false
         sleepSeconds := cfg.update_interval
         runningAfter := true })
  | some altitude => tick_body cfg st inp altitude

/-- The fixed recovery sleep of the per-tick exception handler (source
line 370: `time.sleep(60)`). -/
def recovery_sleep_seconds : ℚ := 60

/-- One iteration of the `while self.running` loop (source lines
322-370). A `none` input models an unexpected exception raised during
the tick: it is caught, logged, the loop sleeps the fixed recovery
interval and remains running. -/
def loop_iteration (cfg : Config) (st : LoopState) (inp : Option TickInput) :
    LoopState × TickResult :=
  match inp with
  | some i => tick cfg st i
  | none =>
      (st,
       { sentValue := none
         newlySet := none
         didLog := false
         gateMateriality := false
         gateImminence := false
         sleepSeconds := recovery_sleep_seconds
         runningAfter := true })

/-- Python truthiness failure of the resolved latitude (source line 312,
`if not lat:`): `None` and `0.0` are both falsy. -/
def location_is_unresolved (lat : Option ℚ) : Bool :=
  match lat with
  | none => true
  | some v => decide (v = 0)

/-- Whether `SunDimmer.run` proceeds past the location check into the
polling loop (source lines 311-314): it returns early exactly when the
resolved latitude is falsy. The longitude is not inspected. -/
def run_starts_polling (lat _lon : Option ℚ) : Bool :=
  !(location_is_unresolved lat)

/-- Initialization of the drift-detection baseline before the first tick
(source line 319): `last_set_brightness = self.get_current_brightness()
or 50` — Python `or` replaces both `None` and `0` by `50`. -/
def initial_last_set_brightness (readback : Option ℤ) : ℤ :=
  match readback with
  | none => 50
  | some v => if v = 0 then 50 else v

/-- Fresh persisted state on first run (source line 124) together with
fresh loop trackers. -/
def fresh_state : LoopState :=
  { user_offset := 0
    last_brightness := 50
    last_logged_brightness := none
    last_set_brightness := 50
    is_first_run := true }

/-- A configuration whose curve yields exactly 55 at altitude 45, with
the default tolerance 2. -/
def cfg_C1 : Config :=
  { min_brightness := 10
    max_brightness := 100
    sun_down_alt := 0
    sun_high_alt := 90
    manual_change_tolerance := 2
    update_interval := 300
    log_before_change_minutes := 15 }

/-- A steady state whose drift baseline is 50, past the first tick. -/
def st_C1 : LoopState :=
  { user_offset := 0
    last_brightness := 50
    last_logged_brightness := none
    last_set_brightness := 50
    is_first_run := false }

/-- A tick input with a device readback of 60 at altitude 45. -/
def inp_C1 : TickInput :=
  { actual := some 60
    altitude := some 45
    gateAltNow := none
    gateAltFuture := none
    writeOk := true }

/-- A tick input at altitude 12 with passing gate oracles and a
successful write. -/
def inp_C2a : TickInput :=
  { actual := none
    altitude := some 12
    gateAltNow := some 12
    gateAltFuture := some 12
    writeOk := true }

/-- Same readback and altitude as `inp_C2a` but opposite gate oracles
and a failing write. -/
def inp_C2b : TickInput :=
  { actual := none
    altitude := some 12
    gateAltNow := none
    gateAltFuture := some 50
    writeOk := false }

/-- A tick input at altitude 12 with no readback. -/
def inp_C4 : TickInput :=
  { actual := none
    altitude := some 12
    gateAltNow := some 12
    gateAltFuture := some 12
    writeOk := true }

/-- A steady state past the first tick with drift baseline 50 and no
stored offset. -/
def st_C6 : LoopState :=
  { user_offset := 0
    last_brightness := 50
    last_logged_brightness := none
    last_set_brightness := 50
    is_first_run := false }

/-- A tick input reading back 60 at altitude 12 (where the default
curve yields 50.5). -/
def inp_C6 : TickInput :=
  { actual := some 60
    altitude := some 12
    gateAltNow := none
    gateAltFuture := none
    writeOk := true }

/-- The default configuration with a poll interval of 45 seconds,
shorter than the fixed 60-second recovery sleep. -/
def cfg_C8 : Config :=
  { DEFAULT_CONFIG with update_interval := 45 }

/-! ## Basic lemmas about the embedding -/

theorem apply_write_user_offset (st : LoopState) (n : Option ℤ) (w : Bool) (f : ℚ) :
    (apply_write st n w f).user_offset = st.user_offset := by
  cases n <;> rfl

theorem tick_altitude_some (cfg : Config) (st : LoopState) (inp : TickInput)
    (a : ℚ) (h : inp.altitude = some a) :
    tick cfg st inp = tick_body cfg st inp a := by
  unfold tick
  rw [h]

theorem tick_body_user_offset (cfg : Config) (st : LoopState) (inp : TickInput) (a : ℚ) :
    (tick_body cfg st inp a).1.user_offset =
      drift_offset_update cfg st inp.actual (calculate_brightness_from_sun cfg a) := by
  simp only [tick_body]
  rw [apply_write_user_offset]
  rfl

theorem tick_body_sentValue (cfg : Config) (st : LoopState) (inp : TickInput) (a : ℚ) :
    (tick_body cfg st inp a).2.sentValue =
      some (set_brightness_value cfg (calculate_brightness_from_sun cfg a +
        drift_offset_update cfg st inp.actual (calculate_brightness_from_sun cfg a))) :=
  rfl

theorem tick_body_gateMateriality (cfg : Config) (st : LoopState) (inp : TickInput) (a : ℚ) :
    (tick_body cfg st inp a).2.gateMateriality =
      brightness_will_change st.last_logged_brightness
        (calculate_brightness_from_sun cfg a +
          drift_offset_update cfg st inp.actual (calculate_brightness_from_sun cfg a)) :=
  rfl

theorem curve_of_le_down (cfg : Config) (a : ℚ) (h : a ≤ cfg.sun_down_alt) :
    calculate_brightness_from_sun cfg a = (cfg.min_brightness : ℚ) := by
  simp [calculate_brightness_from_sun, h]

theorem curve_of_ge_high (cfg : Config) (a : ℚ) (hda : cfg.sun_down_alt < a)
    (h : cfg.sun_high_alt ≤ a) :
    calculate_brightness_from_sun cfg a = (cfg.max_brightness : ℚ) := by
  simp [calculate_brightness_from_sun, not_le.mpr hda, ge_iff_le, h]

theorem curve_interior (cfg : Config) (a : ℚ) (h1 : cfg.sun_down_alt < a)
    (h2 : a < cfg.sun_high_alt) :
    calculate_brightness_from_sun cfg a =
      (cfg.min_brightness : ℚ) +
        (a - cfg.sun_down_alt) / (cfg.sun_high_alt - cfg.sun_down_alt) *
          ((cfg.max_brightness : ℚ) - (cfg.min_brightness : ℚ)) := by
  simp [calculate_brightness_from_sun, not_le.mpr h1, ge_iff_le, not_le.mpr h2]

theorem curve_between (cfg : Config) (hb : cfg.min_brightness ≤ cfg.max_brightness)
    (a : ℚ) :
    (cfg.min_brightness : ℚ) ≤ calculate_brightness_from_sun cfg a ∧
      calculate_brightness_from_sun cfg a ≤ (cfg.max_brightness : ℚ) := by
  have hbq : (cfg.min_brightness : ℚ) ≤ (cfg.max_brightness : ℚ) := by exact_mod_cast hb
  by_cases h1 : a ≤ cfg.sun_down_alt
  · rw [curve_of_le_down cfg a h1]
    exact ⟨le_refl _, hbq⟩
  · have hda : cfg.sun_down_alt < a := not_le.mp h1
    by_cases h2 : cfg.sun_high_alt ≤ a
    · rw [curve_of_ge_high cfg a hda h2]
      exact ⟨hbq, le_refl _⟩
    · have hah : a < cfg.sun_high_alt := not_le.mp h2
      rw [curve_interior cfg a hda hah]
      have hr : (0 : ℚ) < cfg.sun_high_alt - cfg.sun_down_alt := by linarith [hda, hah]
      have hbr : (0 : ℚ) ≤ (cfg.max_brightness : ℚ) - (cfg.min_brightness : ℚ) := by
        linarith
      have hp0 : (0 : ℚ) ≤ (a - cfg.sun_down_alt) / (cfg.sun_high_alt - cfg.sun_down_alt) :=
        div_nonneg (by linarith) (le_of_lt hr)
      have hp1 : (a - cfg.sun_down_alt) / (cfg.sun_high_alt - cfg.sun_down_alt) ≤ 1 := by
        rw [div_le_one hr]
        linarith
      constructor
      · nlinarith [mul_nonneg hp0 hbr]
      · nlinarith [mul_le_of_le_one_left hbr hp1]

/-! ## Claims -/

/-- Claim C3: `calculate_brightness_from_sun` is the three-segment
piecewise-linear map — `min_brightness` at or below `sun_down_alt`,
`max_brightness` at or above `sun_high_alt`, and the linear
interpolation in between — and for the default configuration
`{min=1, max=100, sun_down_alt=-6, sun_high_alt=30}` at altitude 12 the
calculated brightness is exactly 50.5. -/
theorem C3_piecewise_curve :
    (∀ (cfg : Config) (a : ℚ), cfg.sun_down_alt < cfg.sun_high_alt →
      ((a ≤ cfg.sun_down_alt →
          calculate_brightness_from_sun cfg a = (cfg.min_brightness : ℚ)) ∧
        (cfg.sun_high_alt ≤ a →
          calculate_brightness_from_sun cfg a = (cfg.max_brightness : ℚ)) ∧
        (cfg.sun_down_alt < a → a < cfg.sun_high_alt →
          calculate_brightness_from_sun cfg a =
            (cfg.min_brightness : ℚ) +
              (a - cfg.sun_down_alt) / (cfg.sun_high_alt - cfg.sun_down_alt) *
                ((cfg.max_brightness : ℚ) - (cfg.min_brightness : ℚ))))) ∧
    calculate_brightness_from_sun DEFAULT_CONFIG 12 = 101/2 := by
  constructor
  · intro cfg a hlt
    refine ⟨fun h => curve_of_le_down cfg a h,
      fun h => curve_of_ge_high cfg a (lt_of_lt_of_le hlt h) h,
      fun h1 h2 => curve_interior cfg a h1 h2⟩
  · norm_num [calculate_brightness_from_sun, DEFAULT_CONFIG]

/-- Witness for claim C3 at a concrete saturated input. -/
theorem C3_witness :
    calculate_brightness_from_sun DEFAULT_CONFIG 40 = (DEFAULT_CONFIG.max_brightness : ℚ) :=
  (C3_piecewise_curve.1 DEFAULT_CONFIG 40 (by norm_num [DEFAULT_CONFIG])).2.1
    (by norm_num [DEFAULT_CONFIG])

/-- Claim C7: under the configuration invariant
`min_brightness ≤ max_brightness` and `sun_down_alt < sun_high_alt`,
the curve is monotone non-decreasing, equal to `min_brightness` at or
below `sun_down_alt` and to `max_brightness` at or above
`sun_high_alt`. -/
theorem C7_curve_monotone (cfg : Config)
    (hb : cfg.min_brightness ≤ cfg.max_brightness)
    (hlt : cfg.sun_down_alt < cfg.sun_high_alt) :
    (∀ a1 a2 : ℚ, a1 ≤ a2 →
      calculate_brightness_from_sun cfg a1 ≤ calculate_brightness_from_sun cfg a2) ∧
    (∀ a : ℚ, a ≤ cfg.sun_down_alt →
      calculate_brightness_from_sun cfg a = (cfg.min_brightness : ℚ)) ∧
    (∀ a : ℚ, cfg.sun_high_alt ≤ a →
      calculate_brightness_from_sun cfg a = (cfg.max_brightness : ℚ)) := by
  refine ⟨?_, fun a h => curve_of_le_down cfg a h,
    fun a h => curve_of_ge_high cfg a (lt_of_lt_of_le hlt h) h⟩
  intro a1 a2 h12
  by_cases h1 : a1 ≤ cfg.sun_down_alt
  · rw [curve_of_le_down cfg a1 h1]
    exact (curve_between cfg hb a2).1
  · have hda1 : cfg.sun_down_alt < a1 := not_le.mp h1
    by_cases h2 : cfg.sun_high_alt ≤ a1
    · rw [curve_of_ge_high cfg a1 hda1 h2,
        curve_of_ge_high cfg a2 (lt_of_lt_of_le hda1 h12) (le_trans h2 h12)]

    · have hah1 : a1 < cfg.sun_high_alt := not_le.mp h2
      by_cases h3 : cfg.sun_high_alt ≤ a2
      · rw [curve_of_ge_high cfg a2 (lt_of_lt_of_le hda1 h12) h3]
        exact (curve_between cfg hb a1).2
      · have hah2 : a2 < cfg.sun_high_alt := not_le.mp h3
        have hda2 : cfg.sun_down_alt < a2 := lt_of_lt_of_le hda1 h12
        rw [curve_interior cfg a1 hda1 hah1, curve_interior cfg a2 hda2 hah2]
        have hr : (0 : ℚ) < cfg.sun_high_alt - cfg.sun_down_alt := by linarith
        have hbr : (0 : ℚ) ≤ (cfg.max_brightness : ℚ) - (cfg.min_brightness : ℚ) := by
          have : (cfg.min_brightness : ℚ) ≤ (cfg.max_brightness : ℚ) := by exact_mod_cast hb
          linarith
        have hp : (a1 - cfg.sun_down_alt) / (cfg.sun_high_alt - cfg.sun_down_alt) ≤
            (a2 - cfg.sun_down_alt) / (cfg.sun_high_alt - cfg.sun_down_alt) := by
          exact div_le_div_of_nonneg_right (by linarith) hr.le
        nlinarith [mul_le_mul_of_nonneg_right hp hbr]

/-- Witness for claim C7 at the default configuration. -/
theorem C7_witness :
    calculate_brightness_from_sun DEFAULT_CONFIG 0 ≤
      calculate_brightness_from_sun DEFAULT_CONFIG 1 :=
  (C7_curve_monotone DEFAULT_CONFIG (by norm_num [DEFAULT_CONFIG])
    (by norm_num [DEFAULT_CONFIG])).1 0 1 (by norm_num)

/-- Counterexample to claim C8: with `update_interval = 45` the fixed
60-second recovery sleep after an unexpected per-tick exception is not
strictly shorter than the configured poll interval. -/
theorem C8_counterexample :
    (loop_iteration cfg_C8 fresh_state none).2.sleepSeconds = recovery_sleep_seconds ∧
    ¬ (loop_iteration cfg_C8 fresh_state none).2.sleepSeconds < cfg_C8.update_interval := by
  refine ⟨rfl, ?_⟩
  show ¬ recovery_sleep_seconds < cfg_C8.update_interval
  norm_num [recovery_sleep_seconds, cfg_C8, DEFAULT_CONFIG]

/-- Claim C8 (amended): on an unexpected per-tick exception the loop
stays running and sleeps a fixed 60-second recovery interval,
independent of the configuration; this is strictly shorter than the
default `update_interval` of 300, and shorter than the configured
`update_interval` exactly when that interval exceeds 60 seconds. -/
theorem C8_recovery_backoff (cfg : Config) (st : LoopState) :
    (loop_iteration cfg st none).2.runningAfter = true ∧
    (loop_iteration cfg st none).2.sleepSeconds = recovery_sleep_seconds ∧
    recovery_sleep_seconds < DEFAULT_CONFIG.update_interval ∧
    ((loop_iteration cfg st none).2.sleepSeconds < cfg.update_interval ↔
      60 < cfg.update_interval) := by
  exact ⟨rfl, rfl, by norm_num [recovery_sleep_seconds, DEFAULT_CONFIG], Iff.rfl⟩

/-- Claim C9: a resolved latitude of exactly 0 (with any longitude) is
treated as an unresolved location — `run` aborts before polling exactly
as on a failed resolution — because success is tested by the truthiness
of the latitude. -/
theorem C9_zero_latitude_aborts :
    (∀ lon : Option ℚ, run_starts_polling (some 0) lon = false) ∧
    (∀ lon lon2 : Option ℚ, run_starts_polling (some 0) lon = run_starts_polling none lon2) ∧
    (∀ (lat : ℚ) (lon : Option ℚ), run_starts_polling (some lat) lon = true ↔ lat ≠ 0) := by
  refine ⟨fun lon => rfl, fun lon lon2 => rfl, ?_⟩
  intro lat lon
  simp [run_starts_polling, location_is_unresolved]

/-- Claim C10: when the initial device readback is 0 (or unavailable),
the drift-detection baseline is initialized to 50 rather than the read
value, because the fallback applies to any falsy readback. -/
theorem C10_zero_readback_baseline :
    initial_last_set_brightness (some 0) = 50 ∧
    initial_last_set_brightness none = 50 ∧
    (∀ v : ℤ, v ≠ 0 → initial_last_set_brightness (some v) = v) := by
  refine ⟨rfl, rfl, ?_⟩
  intro v hv
  simp [initial_last_set_brightness, hv]

/-- Witness for claim C10 at a nonzero readback. -/
theorem C10_witness : initial_last_set_brightness (some 30) = 30 :=
  C10_zero_readback_baseline.2.2 30 (by decide)

/-- Claim C1: on a non-first tick with a readable device brightness, if
the readback diverges from `last_set_brightness` by more than the
tolerance, the offset committed via `set_offset` is exactly
`actual - calculated`, independent of the previous offset. -/
theorem C1_manual_drift_commits_actual_minus_calculated
    (cfg : Config) (st : LoopState) (inp : TickInput) (a : ℚ) (act : ℤ)
    (haltitude : inp.altitude = some a)
    (hact : inp.actual = some act)
    (hfirst : st.is_first_run = false)
    (hdrift : |(act : ℚ) - (st.last_set_brightness : ℚ)| > cfg.manual_change_tolerance) :
    (tick cfg st inp).1.user_offset =
      (act : ℚ) - calculate_brightness_from_sun cfg a := by
  rw [tick_altitude_some cfg st inp a haltitude, tick_body_user_offset, hact]
  simp only [drift_offset_update]
  rw [if_pos ⟨hfirst, hdrift⟩]
  rfl

/-- Witness for claim C1: `last_set_brightness = 50`, tolerance 2,
readback 60, calculated 55 — the committed offset is 5. -/
theorem C1_witness : (tick cfg_C1 st_C1 inp_C1).1.user_offset = 5 := by
  have h := C1_manual_drift_commits_actual_minus_calculated cfg_C1 st_C1 inp_C1 45 60
    rfl rfl rfl (by norm_num [st_C1, cfg_C1])
  rw [h]
  norm_num [calculate_brightness_from_sun, cfg_C1]

/-- Claim C2: whenever the altitude is available, the tick sends a
device write whose value is `final_brightness` converted to an integer
and clamped to the configured bounds, and the sent value does not
depend on the gate oracles or on write success. -/
theorem C2_write_every_tick
    (cfg : Config) (st : LoopState) (inp inp2 : TickInput) (a : ℚ)
    (haltitude : inp.altitude = some a)
    (haltitude2 : inp2.altitude = inp.altitude)
    (hactual2 : inp2.actual = inp.actual) :
    (tick cfg st inp).2.sentValue =
      some (set_brightness_value cfg (calculate_brightness_from_sun cfg a +
        (tick cfg st inp).1.user_offset)) ∧
    (tick cfg st inp2).2.sentValue = (tick cfg st inp).2.sentValue := by
  have e1 : tick cfg st inp = tick_body cfg st inp a :=
    tick_altitude_some cfg st inp a haltitude
  have e2 : tick cfg st inp2 = tick_body cfg st inp2 a :=
    tick_altitude_some cfg st inp2 a (by rw [haltitude2, haltitude])
  constructor
  · rw [e1, tick_body_sentValue, tick_body_user_offset]
  · rw [e1, e2, tick_body_sentValue, tick_body_sentValue, hactual2]

/-- Witness for claim C2 at the default configuration, altitude 12,
with two tick inputs differing only in gate oracles and write
success. -/
theorem C2_witness :
    (tick DEFAULT_CONFIG fresh_state inp_C2a).2.sentValue =
      some (set_brightness_value DEFAULT_CONFIG
        (calculate_brightness_from_sun DEFAULT_CONFIG 12 +
          (tick DEFAULT_CONFIG fresh_state inp_C2a).1.user_offset)) ∧
    (tick DEFAULT_CONFIG fresh_state inp_C2b).2.sentValue =
      (tick DEFAULT_CONFIG fresh_state inp_C2a).2.sentValue :=
  C2_write_every_tick DEFAULT_CONFIG fresh_state inp_C2a inp_C2b 12 rfl rfl rfl

/-- Claim C4: the materiality gate is true exactly when there is no
prior logged value or the new final brightness differs from it by more
than 0.5; in particular 40 → 40.3 reports no change and 40 → 41 reports
change; and every tick with an available altitude evaluates the gate on
`last_logged_brightness` and the tick's final brightness. -/
theorem C4_materiality_gate :
    (∀ (ll : Option ℚ) (f : ℚ),
      brightness_will_change ll f = true ↔
        (ll = none ∨ ∃ prev, ll = some prev ∧ |f - prev| > 1/2)) ∧
    brightness_will_change (some 40) (403/10) = false ∧
    brightness_will_change (some 40) 41 = true ∧
    (∀ (cfg : Config) (st : LoopState) (inp : TickInput) (a : ℚ),
      inp.altitude = some a →
      (tick cfg st inp).2.gateMateriality =
        brightness_will_change st.last_logged_brightness
          (calculate_brightness_from_sun cfg a + (tick cfg st inp).1.user_offset)) := by
  refine ⟨?_, ?_, ?_, ?_⟩
  · intro ll f
    cases ll with
    | none => simp [brightness_will_change]
    | some prev => simp [brightness_will_change]
  · show decide (|(403 : ℚ)/10 - 40| > 1/2) = false
    norm_num [abs_le]
  · show decide (|(41 : ℚ) - 40| > 1/2) = true
    norm_num
  · intro cfg st inp a h
    rw [tick_altitude_some cfg st inp a h, tick_body_gateMateriality, tick_body_user_offset]

/-- Witness for claim C4 at the default configuration and altitude 12. -/
theorem C4_witness :
    (tick DEFAULT_CONFIG fresh_state inp_C4).2.gateMateriality =
      brightness_will_change fresh_state.last_logged_brightness
        (calculate_brightness_from_sun DEFAULT_CONFIG 12 +
          (tick DEFAULT_CONFIG fresh_state inp_C4).1.user_offset) :=
  C4_materiality_gate.2.2.2 DEFAULT_CONFIG fresh_state inp_C4 12 rfl

/-- Claim C5: when both look-ahead altitudes are computed, the
imminence gate is true exactly when the curve output plus the current
offset at the two instants differ by more than 1; when either
computation fails it returns true (fail open). -/
theorem C5_imminence_gate :
    (∀ (cfg : Config) (st : LoopState) (aNow aFut : ℚ),
      will_brightness_change_soon cfg st (some aNow) (some aFut) = true ↔
        |(calculate_brightness_from_sun cfg aFut + st.user_offset) -
          (calculate_brightness_from_sun cfg aNow + st.user_offset)| > 1) ∧
    (∀ (cfg : Config) (st : LoopState) (x : Option ℚ),
      will_brightness_change_soon cfg st none x = true) ∧
    (∀ (cfg : Config) (st : LoopState) (aNow : ℚ),
      will_brightness_change_soon cfg st (some aNow) none = true) := by
  refine ⟨?_, ?_, ?_⟩
  · intro cfg st aNow aFut
    simp [will_brightness_change_soon]
  · intro cfg st x
    cases x <;> rfl
  · intro cfg st aNow
    rfl

/-- Counterexample to claim C6: at the default configuration with
altitude 12 (curve output 50.5), a readback of 60 against a baseline of
50 commits the offset 9.5, which is not an integer. -/
theorem C6_counterexample :
    ¬ ∃ n : ℤ, (tick DEFAULT_CONFIG st_C6 inp_C6).1.user_offset = (n : ℚ) := by
  have hcalc : calculate_brightness_from_sun DEFAULT_CONFIG 12 = 101/2 := by
    norm_num [calculate_brightness_from_sun, DEFAULT_CONFIG]
  have hval : (tick DEFAULT_CONFIG st_C6 inp_C6).1.user_offset = 19/2 := by
    rw [tick_altitude_some DEFAULT_CONFIG st_C6 inp_C6 12 rfl, tick_body_user_offset, hcalc]
    show drift_offset_update DEFAULT_CONFIG st_C6 (some 60) (101/2) = 19/2
    simp only [drift_offset_update]
    rw [if_pos ⟨rfl, by norm_num [st_C6, DEFAULT_CONFIG]⟩]
    norm_num [drift_new_offset]
  simp only [hval]
  rintro ⟨n, hn⟩
  have h2 : (19 : ℚ) = (n : ℚ) * 2 := by linarith
  have h3 : (19 : ℤ) = n * 2 := by exact_mod_cast h2
  omega

/-- Claim C6 (amended): the committed drift offset
`actual - calculated` is an integer exactly when the curve output
`calculated` is an integer; in general the persisted `user_offset` may
be a non-integral value. -/
theorem C6_offset_integrality (act : ℤ) (c : ℚ) :
    (∃ n : ℤ, drift_new_offset act c = (n : ℚ)) ↔ ∃ m : ℤ, c = (m : ℚ) := by
  unfold drift_new_offset
  constructor
  · rintro ⟨n, hn⟩
    refine ⟨act - n, ?_⟩
    push_cast
    linarith
  · rintro ⟨m, hm⟩
    refine ⟨act - m, ?_⟩
    rw [hm]
    push_cast
    ring

end SunDimmer
